import Mathlib

/-!
Verification of the feedback-intelligence-engine repository.

This file shallowly embeds the two Python scripts
`scripts/process_product_support.py` and `scripts/scripts/send_weekly_digest.py`.
External API calls (Slack, Notion, Anthropic) are modelled by passing their
outcomes in explicitly as inputs (`ApiResult`); the scripts' own logic —
fence stripping, JSON decoding, payload construction, alert dispatch,
counting, digest formatting — is translated directly from the source.

Python exceptions that the source code does not catch (e.g. `KeyError` while
building the Notion payload) are modelled with `Except Unit`; exceptions the
source catches locally are folded into the corresponding return values, as
the source does.
-/

namespace FeedbackEngine

/-! ### Python-style character/string helpers (over `List Char`) -/

/-- Whitespace characters removed by Python's `str.strip()` (ASCII subset:
space, tab, newline, carriage return, vertical tab, form feed). -/
def isPyWs (c : Char) : Bool :=
  c == ' ' || c == '\t' || c == '\n' || c == '\r' ||
  c == Char.ofNat 11 || c == Char.ofNat 12

def dropWsLeft : List Char → List Char
  | [] => []
  | c :: cs => if isPyWs c then dropWsLeft cs else c :: cs

/-- Python `str.strip()` on a character list: drop leading and trailing whitespace. -/
def trimL (cs : List Char) : List Char :=
  ((dropWsLeft ((dropWsLeft cs.reverse)).reverse))

/-- Python `str.strip()`. -/
def pyStrip (s : String) : String := String.mk (trimL s.data)

/-- Auxiliary for Python `str.split(sep)` with a non-empty separator:
`acc` holds the current piece reversed; `fuel` bounds the recursion
(`fuel = length + 1` always suffices since each step consumes a character). -/
def splitOnAux (sep : List Char) : Nat → List Char → List Char → List (List Char)
  | 0, acc, rest => [acc.reverse ++ rest]
  | _ + 1, acc, [] => [acc.reverse]
  | fuel + 1, acc, c :: cs =>
    if sep.isPrefixOf (c :: cs) then
      acc.reverse :: splitOnAux sep fuel [] (List.drop sep.length (c :: cs))
    else
      splitOnAux sep fuel (c :: acc) cs

/-- Python `str.split(sep)` for a non-empty separator. -/
def splitOnL (sep cs : List Char) : List (List Char) :=
  splitOnAux sep (cs.length + 1) [] cs

/-! ### JSON values and a parser mirroring Python's `json.loads` (strict mode)

Numbers are kept as their lexemes (the classification pipeline only ever
inspects string-valued fields, and this avoids floating point); Python's
default acceptance of `NaN`, `Infinity` and `-Infinity` is included.
`\uXXXX` escapes map the code unit through `Char.ofNat` (surrogate pairs are
not recombined; no claim involves them). -/

inductive Json where
  | null
  | bool (b : Bool)
  | num (lexeme : String)
  | str (s : String)
  | arr (elems : List Json)
  | obj (members : List (String × Json))

/-- JSON insignificant whitespace (RFC 8259: space, tab, newline, carriage return). -/
def isJsonWs (c : Char) : Bool :=
  c == ' ' || c == '\t' || c == '\n' || c == '\r'

def skipWs : List Char → List Char
  | [] => []
  | c :: cs => if isJsonWs c then skipWs cs else c :: cs

def hexVal (c : Char) : Option Nat :=
  if '0' ≤ c ∧ c ≤ '9' then some (c.toNat - '0'.toNat)
  else if 'a' ≤ c ∧ c ≤ 'f' then some (c.toNat - 'a'.toNat + 10)
  else if 'A' ≤ c ∧ c ≤ 'F' then some (c.toNat - 'A'.toNat + 10)
  else none

/-- Parse the body of a JSON string after the opening quote; returns the
decoded characters and the remainder after the closing quote.  Raw control
characters below 0x20 are rejected (Python strict mode). -/
def parseStringBody : Nat → List Char → Option (List Char × List Char)
  | 0, _ => none
  | _ + 1, [] => none
  | fuel + 1, c :: cs =>
    if c == '"' then some ([], cs)
    else if c == '\\' then
      match cs with
      | [] => none
      | e :: cs2 =>
        if e == '"' then (parseStringBody fuel cs2).map (fun p => ('"' :: p.1, p.2))
        else if e == '\\' then (parseStringBody fuel cs2).map (fun p => ('\\' :: p.1, p.2))
        else if e == '/' then (parseStringBody fuel cs2).map (fun p => ('/' :: p.1, p.2))
        else if e == 'b' then (parseStringBody fuel cs2).map (fun p => (Char.ofNat 8 :: p.1, p.2))
        else if e == 'f' then (parseStringBody fuel cs2).map (fun p => (Char.ofNat 12 :: p.1, p.2))
        else if e == 'n' then (parseStringBody fuel cs2).map (fun p => ('\n' :: p.1, p.2))
        else if e == 'r' then (parseStringBody fuel cs2).map (fun p => ('\r' :: p.1, p.2))
        else if e == 't' then (parseStringBody fuel cs2).map (fun p => ('\t' :: p.1, p.2))
        else if e == 'u' then
          match cs2 with
          | h1 :: h2 :: h3 :: h4 :: rest =>
            match hexVal h1, hexVal h2, hexVal h3, hexVal h4 with
            | some a, some b, some c3, some d =>
              (parseStringBody fuel rest).map
                (fun p => (Char.ofNat (((a * 16 + b) * 16 + c3) * 16 + d) :: p.1, p.2))
            | _, _, _, _ => none
          | _ => none
        else none
    else if c.toNat < 32 then none
    else (parseStringBody fuel cs).map (fun p => (c :: p.1, p.2))

def digitsOf (cs : List Char) : List Char × List Char :=
  (cs.takeWhile Char.isDigit, cs.dropWhile Char.isDigit)

/-- JSON integer part: `0`, or a nonzero digit followed by digits. -/
def parseIntPart : List Char → Option (List Char × List Char)
  | [] => none
  | c :: rest =>
    if c == '0' then some (['0'], rest)
    else if c.isDigit then
      some (c :: (digitsOf rest).1, (digitsOf rest).2)
    else none

/-- Optional JSON fraction part: `.` followed by one or more digits. -/
def parseFracPart (cs : List Char) : Option (List Char × List Char) :=
  match cs with
  | '.' :: rest =>
    if (digitsOf rest).1.isEmpty then none
    else some ('.' :: (digitsOf rest).1, (digitsOf rest).2)
  | _ => some ([], cs)

/-- Optional JSON exponent part: `e`/`E`, optional sign, one or more digits. -/
def parseExpPart (cs : List Char) : Option (List Char × List Char) :=
  match cs with
  | c :: rest =>
    if c == 'e' || c == 'E' then
      match rest with
      | s :: rest2 =>
        if s == '+' || s == '-' then
          if (digitsOf rest2).1.isEmpty then none
          else some (c :: s :: (digitsOf rest2).1, (digitsOf rest2).2)
        else
          if (digitsOf rest).1.isEmpty then none
          else some (c :: (digitsOf rest).1, (digitsOf rest).2)
      | [] => none
    else some ([], cs)
  | [] => some ([], cs)

/-- Lex a JSON number; returns its lexeme and the remainder. -/
def parseNumber (cs : List Char) : Option (List Char × List Char) :=
  let signed : List Char × List Char :=
    match cs with
    | c :: rest => if c == '-' then (['-'], rest) else ([], cs)
    | [] => ([], cs)
  match parseIntPart signed.2 with
  | none => none
  | some (ip, cs2) =>
    match parseFracPart cs2 with
    | none => none
    | some (fp, cs3) =>
      match parseExpPart cs3 with
      | none => none
      | some (ep, cs4) => some (signed.1 ++ ip ++ fp ++ ep, cs4)

/-- Match a keyword (`true`, `false`, `null`, `NaN`, `Infinity`, `-Infinity`). -/
def kwMatch (kw cs : List Char) : Option (List Char) :=
  if kw.isPrefixOf cs then some (cs.drop kw.length) else none

mutual

/-- Recursive-descent JSON value parse, fuelled; mirrors `json.loads`'s
grammar (strict strings, string-keyed objects, no trailing commas). -/
def parseValue : Nat → List Char → Option (Json × List Char)
  | 0, _ => none
  | fuel + 1, cs0 =>
    match skipWs cs0 with
    | [] => none
    | c :: rest =>
      if c == '"' then
        match parseStringBody (rest.length + 1) rest with
        | some (body, r) => some (Json.str (String.mk body), r)
        | none => none
      else if c == '{' then
        match skipWs rest with
        | '}' :: r => some (Json.obj [], r)
        | cs2 =>
          match parseMembers fuel cs2 with
          | some (kvs, r) => some (Json.obj kvs, r)
          | none => none
      else if c == '[' then
        match skipWs rest with
        | ']' :: r => some (Json.arr [], r)
        | cs2 =>
          match parseElems fuel cs2 with
          | some (vs, r) => some (Json.arr vs, r)
          | none => none
      else if c == 't' then
        (kwMatch "true".data (c :: rest)).map (fun r => (Json.bool true, r))
      else if c == 'f' then
        (kwMatch "false".data (c :: rest)).map (fun r => (Json.bool false, r))
      else if c == 'n' then
        (kwMatch "null".data (c :: rest)).map (fun r => (Json.null, r))
      else if c == 'N' then
        (kwMatch "NaN".data (c :: rest)).map (fun r => (Json.num "NaN", r))
      else if c == 'I' then
        (kwMatch "Infinity".data (c :: rest)).map (fun r => (Json.num "Infinity", r))
      else if c == '-' then
        match kwMatch "-Infinity".data (c :: rest) with
        | some r => some (Json.num "-Infinity", r)
        | none =>
          match parseNumber (c :: rest) with
          | some (lex, r) => some (Json.num (String.mk lex), r)
          | none => none
      else
        match parseNumber (c :: rest) with
        | some (lex, r) => some (Json.num (String.mk lex), r)
        | none => none

/-- One or more `"key": value` members followed by `}`; input starts at the
first member. -/
def parseMembers : Nat → List Char → Option (List (String × Json) × List Char)
  | 0, _ => none
  | fuel + 1, cs =>
    match skipWs cs with
    | '"' :: rest =>
      match parseStringBody (rest.length + 1) rest with
      | some (key, r1) =>
        match skipWs r1 with
        | ':' :: r2 =>
          match parseValue fuel r2 with
          | some (v, r3) =>
            match skipWs r3 with
            | ',' :: r4 =>
              match parseMembers fuel r4 with
              | some (kvs, r5) => some ((String.mk key, v) :: kvs, r5)
              | none => none
            | '}' :: r4 => some ([(String.mk key, v)], r4)
            | _ => none
          | none => none
        | _ => none
      | none => none
    | _ => none

/-- One or more array elements followed by `]`; input starts at the first
element. -/
def parseElems : Nat → List Char → Option (List Json × List Char)
  | 0, _ => none
  | fuel + 1, cs =>
    match parseValue fuel cs with
    | some (v, r1) =>
      match skipWs r1 with
      | ',' :: r2 =>
        match parseElems fuel r2 with
        | some (vs, r3) => some (v :: vs, r3)
        | none => none
      | ']' :: r2 => some ([v], r2)
      | _ => none
    | none => none

end

/-- Python `json.loads`: parse one JSON value and require that only
whitespace remains (otherwise Python raises "Extra data").  The fuel
`2 * length + 4` dominates the parser's call depth (each two nested calls
consume at least one character). -/
def json_loads (s : String) : Option Json :=
  match parseValue (2 * s.data.length + 4) s.data with
  | some (v, rest) => if (skipWs rest).isEmpty then some v else none
  | none => none

/-! ### Lines 72–77 of `process_product_support.py`: fence stripping -/

/-- The markdown-stripping step of `extract_feedback_with_claude`
(lines 72–77):

    if text.startswith("```"):
        text = text.split("```")[1].strip()
        if text.startswith("json"):
            text = text[4:].strip()

`split("```")` always yields at least two pieces when the text starts with
the fence, so the `[1]` index cannot fail; the `getD` default is unreachable. -/
def stripFence (text : String) : String :=
  if ("```".data).isPrefixOf text.data then
    let t1 := trimL ((splitOnL "```".data text.data).getD 1 [])
    if ("json".data).isPrefixOf t1 then String.mk (trimL (t1.drop 4))
    else String.mk t1
  else text

/-- Outcome of one external API call: the transport either delivered a value
or raised (any exception). -/
inductive ApiResult (α : Type) where
  | ok (val : α)
  | error

/-- `extract_feedback_with_claude` (lines 24–84): sends the prompt, strips an
optional fenced-code wrapper from the response text, and `json.loads` it.
`None` on a JSON decode error or any API/transport exception.  The message
text only feeds the prompt, so the result depends on the model response. -/
def extract_feedback_with_claude (message_text : String) (resp : ApiResult String) :
    Option Json :=
  match resp with
  | .error => none
  | .ok text => json_loads (stripFence text)

/-! ### Python dict / truthiness semantics on `Json` values -/

/-- Python dict lookup on an association list in insertion order: a repeated
key overwrites the earlier binding, so the LAST binding wins. -/
def lookupLast : List (String × Json) → String → Option Json
  | [], _ => none
  | (k, v) :: rest, key =>
    match lookupLast rest key with
    | some r => some r
    | none => if k == key then some v else none

/-- `j[key]` / `j.get(key)` succeeding: `some` exactly when `j` is an object
containing `key`.  `none` covers Python's `KeyError` (object without the key)
and `TypeError` (subscripting a non-dict with a string). -/
def Json.getKey : Json → String → Option Json
  | .obj kvs, key => lookupLast kvs key
  | _, _ => none

/-- Whether a number lexeme denotes zero (`0`, `-0`, `0.00`, `0e5`, …);
`NaN`/`Infinity` lexemes are nonzero. -/
def numIsZero (lex : String) : Bool :=
  if lex.data.any (fun c => c == 'N' || c == 'I') then false
  else (lex.data.takeWhile (fun c => !(c == 'e' || c == 'E'))).all
    (fun c => !c.isDigit || c == '0')

/-- Python truthiness of a JSON-decoded value (`if not extracted: ...`):
`None`, `False`, zero, and empty strings/lists/dicts are falsy. -/
def jsonTruthy : Json → Bool
  | .null => false
  | .bool b => b
  | .num lex => !numIsZero lex
  | .str s => !s.data.isEmpty
  | .arr xs => !xs.isEmpty
  | .obj kvs => !kvs.isEmpty

/-- Python `j == "literal"`: equal exactly when `j` is that string (comparing
a non-string JSON value with a `str` is `False`, never an error). -/
def jsonEqStr (j : Json) (s : String) : Bool :=
  match j with
  | .str t => t == s
  | _ => false

/-! ### The classification schema requested by the prompt (lines 53–61) -/

def tierValues : List String := ["Tier 1", "Tier 2", "Tier 3"]

def personaValues : List String := ["Alice", "Peter", "Carol", "Ron", "Unknown"]

def bucketValues : List String := ["Autopilot", "Co-pilot", "Voice AI", "Other"]

def sentimentValues : List String := ["Positive", "Negative", "Neutral"]

def isStrVal : Json → Bool
  | .str _ => true
  | _ => false

def inEnum (o : Option Json) (vals : List String) : Bool :=
  match o with
  | some (.str s) => vals.contains s
  | _ => false

/-- A classification record with all six fields present and drawn from the
closed enumerations of the prompt (`theme` and `snippet` are free text, the
other four are single-select values). -/
def isFullyPopulated (j : Json) : Bool :=
  (match j.getKey "theme" with | some v => isStrVal v | none => false) &&
  inEnum (j.getKey "urgency") tierValues &&
  inEnum (j.getKey "persona") personaValues &&
  inEnum (j.getKey "strategic_bucket") bucketValues &&
  (match j.getKey "snippet" with | some v => isStrVal v | none => false) &&
  inEnum (j.getKey "sentiment") sentimentValues

/-- The six keys the downstream code subscripts without any guard. -/
def hasAllSixKeys (j : Json) : Bool :=
  (j.getKey "theme").isSome && (j.getKey "urgency").isSome &&
  (j.getKey "persona").isSome && (j.getKey "strategic_bucket").isSome &&
  (j.getKey "snippet").isSome && (j.getKey "sentiment").isSome

/-! ### `create_notion_entry` (lines 86–149) -/

/-- The `source_map.get(source, source)` lookup (lines 96–99 and 111). -/
def source_map (source : String) : String :=
  if source == "product-support" then "product-support"
  else if source == "trustpilot" then "trustpilot-reviews"
  else source

/-- The Notion page properties assembled on lines 101–132.  The `Date`
property is `datetime.now().isoformat()` — process wall-clock time, carried
here as an opaque string parameter of the caller's environment is not needed
by any claim and omitted; every other property is kept.  Fields hold the raw
JSON values taken from `extracted_data` (Python would serialize whatever
value sits there). -/
structure NotionPayload where
  title : Json
  source : String
  tier : Json
  persona : Json
  bucket : Json
  snippet : Json
  theme : Json
  sentiment : Json

/-- Payload construction: each `extracted_data[...]` subscript raises
(uncaught — it happens before the `try` on line 134) when the key is absent
or the value is not a dict; otherwise the record is built.  Which of the six
lookups fails first is irrelevant: the exception is the same kind either way. -/
def buildPayload (extracted : Json) (source : String) : Except Unit NotionPayload :=
  match extracted.getKey "theme", extracted.getKey "urgency",
        extracted.getKey "persona", extracted.getKey "strategic_bucket",
        extracted.getKey "snippet", extracted.getKey "sentiment" with
  | some th, some urg, some pe, some bu, some sn, some se =>
    Except.ok
      { title := th, source := source_map source, tier := urg, persona := pe,
        bucket := bu, snippet := sn, theme := th, sentiment := se }
  | _, _, _, _, _, _ => Except.error ()

/-- `create_notion_entry`: build the payload (possible uncaught `KeyError`),
then POST it; inside the `try`, a 200 response returns `True` and any other
status or transport exception returns `False` (lines 134–149). -/
def create_notion_entry (extracted : Json) (source : String) (resp : ApiResult Nat) :
    Except Unit Bool :=
  match buildPayload extracted source with
  | .error u => .error u
  | .ok _ =>
    .ok (match resp with
         | .ok status => status == 200
         | .error => false)

/-- `send_tier1_alert` (lines 151–175): the alert f-string subscripts
`theme`, `persona`, `strategic_bucket` and `snippet` before the `try`, so a
missing key raises uncaught; otherwise the Slack post returns `True` on
success and `False` on any exception.  The alert text itself is not needed
by any claim and is not reconstructed. -/
def send_tier1_alert (extracted : Json) (sendOk : Bool) : Except Unit Bool :=
  if (extracted.getKey "theme").isSome && (extracted.getKey "persona").isSome &&
     (extracted.getKey "strategic_bucket").isSome && (extracted.getKey "snippet").isSome then
    .ok sendOk
  else .error ()

/-! ### The per-message loop of `process_product_support` (lines 216–242) -/

/-- One fetched Slack message: `.get("text", "")`, `.get("subtype")` and
`.get("ts")` model the optional fields the loop reads. -/
structure SlackMessage where
  text : Option String
  subtype : Option String
  ts : Option String

/-- Environment for one loop iteration: the outcome of each external call
the iteration can make. -/
structure MsgEnv where
  claudeResp : ApiResult String
  notionResp : ApiResult Nat
  slackOk : Bool

/-- `message.get("subtype") in ["bot_message", "message_deleted"]`. -/
def isSkippedSubtype : Option String → Bool
  | some s => s == "bot_message" || s == "message_deleted"
  | none => false

/-- What one loop iteration did. -/
structure StepOut where
  skipped : Bool
  writeAttempted : Bool
  writeOk : Bool
  alertAttempted : Bool
  alertOk : Bool
  processedInc : Nat
  tier1Inc : Nat

/-- The outcome of a `continue`d iteration. -/
def skippedStep : StepOut :=
  { skipped := true, writeAttempted := false, writeOk := false,
    alertAttempted := false, alertOk := false, processedInc := 0, tier1Inc := 0 }

/-- One iteration of the message loop (lines 216–242): strip, filter empties /
bot / deleted subtypes / short texts, classify, skip falsy classifications,
write the Notion entry (counting success into `processed`), and—when
`extracted["urgency"] == "Tier 1"`—attempt exactly one alert (counting
success into `tier1_count`).  `Except.error` is an uncaught exception that
the top-level handler turns into a fatal run failure. -/
def processMessage (msg : SlackMessage) (env : MsgEnv) : Except Unit StepOut :=
  let text := pyStrip (msg.text.getD "")
  if text.data.isEmpty || isSkippedSubtype msg.subtype then .ok skippedStep
  else if text.length < 10 then .ok skippedStep
  else
    match extract_feedback_with_claude text env.claudeResp with
    | none => .ok skippedStep
    | some extracted =>
      if jsonTruthy extracted then
        match create_notion_entry extracted "product-support" env.notionResp with
        | .error u => .error u
        | .ok wok =>
          match extracted.getKey "urgency" with
          | none => .error ()
          | some urg =>
            if jsonEqStr urg "Tier 1" then
              match send_tier1_alert extracted env.slackOk with
              | .error u => .error u
              | .ok aok =>
                .ok { skipped := false, writeAttempted := true, writeOk := wok,
                      alertAttempted := true, alertOk := aok,
                      processedInc := if wok then 1 else 0,
                      tier1Inc := if aok then 1 else 0 }
            else
              .ok { skipped := false, writeAttempted := true, writeOk := wok,
                    alertAttempted := false, alertOk := false,
                    processedInc := if wok then 1 else 0, tier1Inc := 0 }
      else .ok skippedStep

/-- The whole message loop: accumulates `processed` and `tier1_count` and the
per-iteration trace; an uncaught exception in any iteration aborts the run
(later messages are not reached and no summary is printed). -/
def runLoop : List (SlackMessage × MsgEnv) → Except Unit (Nat × Nat × List StepOut)
  | [] => .ok (0, 0, [])
  | (msg, env) :: rest =>
    match processMessage msg env with
    | .error u => .error u
    | .ok s =>
      match runLoop rest with
      | .error u => .error u
      | .ok (p, t, outs) => .ok (s.processedInc + p, s.tier1Inc + t, s :: outs)

/-! ### The `process_product_support` entry point (lines 177–254) -/

structure SlackChannel where
  name : String
  id : String

/-- Environment of one run: the channel listing and the fetched messages with
each message's external-call outcomes. -/
structure RunEnv where
  channels : List SlackChannel
  messages : List (SlackMessage × MsgEnv)

/-- Decimal rendering of a counter for the summary lines (Python f-string). -/
def natDigitsAux : Nat → Nat → List Char → List Char
  | 0, _, acc => acc
  | fuel + 1, n, acc =>
    if n < 10 then Char.ofNat (48 + n) :: acc
    else natDigitsAux fuel (n / 10) (Char.ofNat (48 + n % 10) :: acc)

def natToString (n : Nat) : String := String.mk (natDigitsAux (n + 1) n [])

/-- Result of a run: the boolean the function returns, the two counters, and
the two summary lines printed on lines 245–246 (absent when the run ended
early or fatally). -/
structure RunReport where
  ok : Bool
  processed : Nat
  tier1 : Nat
  summary : List String
  steps : List StepOut

/-- `process_product_support`: find the `product-support` channel (missing →
`False`), return `True` early on an empty fetch, then run the loop; a fatal
exception is caught by the top-level handler which returns `False` (exit 1),
otherwise the summary is printed and `True` returned (exit 0). -/
def process_product_support (env : RunEnv) : RunReport :=
  match env.channels.find? (fun c => c.name == "product-support") with
  | none => { ok := false, processed := 0, tier1 := 0, summary := [], steps := [] }
  | some _ =>
    if env.messages.isEmpty then
      { ok := true, processed := 0, tier1 := 0, summary := [], steps := [] }
    else
      match runLoop env.messages with
      | .error _ => { ok := false, processed := 0, tier1 := 0, summary := [], steps := [] }
      | .ok (p, t, outs) =>
        { ok := true, processed := p, tier1 := t,
          summary := ["   - Processed: " ++ natToString p ++ " messages",
                      "   - Tier 1 alerts: " ++ natToString t],
          steps := outs }

/-- Number of alert send attempts an iteration made (0 when it died fatally). -/
def alertAttemptCount : Except Unit StepOut → Nat
  | .ok s => if s.alertAttempted then 1 else 0
  | .error _ => 0

def countWriteAttempts (outs : List StepOut) : Nat :=
  (outs.filter (fun s => s.writeAttempted)).length

def countAlertAttempts (outs : List StepOut) : Nat :=
  (outs.filter (fun s => s.alertAttempted)).length

def countWriteSuccess (outs : List StepOut) : Nat :=
  (outs.filter (fun s => s.writeOk)).length

/-! ### `send_weekly_digest.py` -/

/-- Python `d.get(key, default)`: raises (`AttributeError`) when `d` is not a
dict, otherwise returns the binding or the default. -/
def pyDictGet (j : Json) (key : String) (dflt : Json) : Except Unit Json :=
  match j with
  | .obj kvs =>
    match lookupLast kvs key with
    | some v => .ok v
    | none => .ok dflt
  | _ => .error ()

/-- One rich-text property read of `format_entries_for_claude` (Theme and
Snippet, lines 69–70 and 81–82):

    x = props.get(key, {}).get("rich_text", [])
    x_text = x[0]["text"]["content"] if x else dflt

A truthy non-list value, or a first element without `["text"]["content"]`,
raises uncaught. -/
def richTextProp (props : Json) (key : String) (dflt : String) : Except Unit Json :=
  match pyDictGet props key (Json.obj []) with
  | .error u => .error u
  | .ok prop =>
    match pyDictGet prop "rich_text" (Json.arr []) with
    | .error u => .error u
    | .ok lst =>
      if jsonTruthy lst then
        match lst with
        | .arr (x :: _) =>
          match x.getKey "text" with
          | none => .error ()
          | some t =>
            match t.getKey "content" with
            | none => .error ()
            | some c => .ok c
        | _ => .error ()
      else .ok (Json.str dflt)

/-- One select property read of `format_entries_for_claude` (Persona, Tier,
Sentiment, Source, Strategic Bucket; lines 72–88):

    x = props.get(key, {}).get("select")
    x_text = x["name"] if x else dflt
-/
def selectProp (props : Json) (key : String) (dflt : String) : Except Unit Json :=
  match pyDictGet props key (Json.obj []) with
  | .error u => .error u
  | .ok prop =>
    match pyDictGet prop "select" Json.null with
    | .error u => .error u
    | .ok sel =>
      if jsonTruthy sel then
        match sel.getKey "name" with
        | none => .error ()
        | some n => .ok n
      else .ok (Json.str dflt)

/-- The compact representation appended for each entry (lines 90–98). -/
structure FormattedEntry where
  theme : Json
  persona : Json
  tier : Json
  sentiment : Json
  snippet : Json
  source : Json
  bucket : Json

/-- Reshape one Notion entry (the body of the loop on lines 65–98), in the
source's field order with the source's defaults. -/
def formatEntry (entry : Json) : Except Unit FormattedEntry := do
  let props ← pyDictGet entry "properties" (Json.obj [])
  let th ← richTextProp props "Theme" "N/A"
  let pe ← selectProp props "Persona" "Unknown"
  let ti ← selectProp props "Tier" "N/A"
  let se ← selectProp props "Sentiment" "N/A"
  let sn ← richTextProp props "Snippet" "N/A"
  let so ← selectProp props "Source" "N/A"
  let bu ← selectProp props "Strategic Bucket" "Other"
  .ok { theme := th, persona := pe, tier := ti, sentiment := se,
        snippet := sn, source := so, bucket := bu }

/-- `format_entries_for_claude` (lines 59–100): reshape every entry; an
exception on any entry propagates (the function has no handler). -/
def format_entries_for_claude : List Json → Except Unit (List FormattedEntry)
  | [] => .ok []
  | e :: rest =>
    match formatEntry e with
    | .error u => .error u
    | .ok fe =>
      match format_entries_for_claude rest with
      | .error u => .error u
      | .ok fes => .ok (fe :: fes)

/-- `query_notion_past_week` (lines 24–57): POST the date-range query; on a
200 response return `response.json()["results"]`, and on any other status or
any exception inside the `try` (transport error, missing `"results"` key)
return the empty list. -/
def query_notion_past_week (resp : ApiResult (Nat × Json)) : Json :=
  match resp with
  | .error => Json.arr []
  | .ok (status, body) =>
    if status == 200 then
      match body.getKey "results" with
      | some r => r
      | none => Json.arr []
    else Json.arr []

/-- `generate_digest_with_claude` (lines 102–161): with no entries, return a
fixed string without calling the model; otherwise call the model and return
its text, or `None` on an API exception.  The second component records
whether the model API was called. -/
def generate_digest_with_claude (formatted : List FormattedEntry)
    (modelResp : ApiResult String) : Option String × Bool :=
  if formatted.isEmpty then (some "No feedback collected this week.", false)
  else
    match modelResp with
    | .ok text => (some text, true)
    | .error => (none, true)

/-- The placeholder digest `main` builds when the query yields nothing
(line 190). -/
def weeklyPlaceholder : String :=
  "# Weekly Feedback Summary\n\nNo feedback collected this week. ✅"

/-- Observable outcome of one digest run: the text handed to the Slack send
(if a send was attempted), whether the model API was called, and whether the
process exits 0. -/
structure DigestRun where
  sentText : Option String
  modelCalled : Bool
  exitSuccess : Bool

/-- `main` of `send_weekly_digest.py` (lines 178–216): query; a falsy result
takes the placeholder branch (no model call); otherwise reshape (an uncaught
exception ends the process with exit 1), generate the digest (a `None`
digest returns `False`), and send; the send's outcome decides the exit code. -/
def digestMain (queryResp : ApiResult (Nat × Json)) (modelResp : ApiResult String)
    (slackOk : Bool) : DigestRun :=
  let entries := query_notion_past_week queryResp
  if jsonTruthy entries then
    match entries with
    | .arr xs =>
      match format_entries_for_claude xs with
      | .error _ => { sentText := none, modelCalled := false, exitSuccess := false }
      | .ok formatted =>
        match generate_digest_with_claude formatted modelResp with
        | (none, called) => { sentText := none, modelCalled := called, exitSuccess := false }
        | (some digest, called) =>
          { sentText := some digest, modelCalled := called, exitSuccess := slackOk }
    | _ => { sentText := none, modelCalled := false, exitSuccess := false }
  else
    { sentText := some weeklyPlaceholder, modelCalled := false, exitSuccess := slackOk }

/-! ### Concrete inputs used by counterexamples and witnesses -/

/-- A syntactically valid JSON classifier response carrying only one of the
six requested fields. -/
def themeOnlyResp : String := "\x7b\"theme\": \"Checkout issue\"\x7d"

def themeOnlyJson : Json := Json.obj [("theme", Json.str "Checkout issue")]

/-- A valid JSON response whose only field is a Tier 1 urgency. -/
def partialTier1Resp : String := "\x7b\"urgency\": \"Tier 1\"\x7d"

def partialTier1Json : Json := Json.obj [("urgency", Json.str "Tier 1")]

def partialTier1Msg : SlackMessage :=
  { text := some "I am blocked from submitting the form", subtype := none, ts := some "5.0" }

def partialTier1Env : MsgEnv :=
  { claudeResp := ApiResult.ok partialTier1Resp, notionResp := ApiResult.ok 200, slackOk := true }

/-- A complete Tier 2 classification response. -/
def tier2Resp : String :=
  "\x7b\"theme\": \"Form crash\", \"urgency\": \"Tier 2\", \"persona\": \"Peter\", \"strategic_bucket\": \"Co-pilot\", \"snippet\": \"The intake form crashes on step two.\", \"sentiment\": \"Negative\"\x7d"

/-- A complete Tier 1 classification response, wrapped in a markdown fence as
the model sometimes does. -/
def tier1Resp : String :=
  "```json\n\x7b\"theme\": \"Checkout blocked\", \"urgency\": \"Tier 1\", \"persona\": \"Carol\", \"strategic_bucket\": \"Autopilot\", \"snippet\": \"A customer cannot complete the purchase.\", \"sentiment\": \"Negative\"\x7d\n```"

def fullTier1Json : Json := Json.obj
  [("theme", Json.str "Checkout blocked"), ("urgency", Json.str "Tier 1"),
   ("persona", Json.str "Carol"), ("strategic_bucket", Json.str "Autopilot"),
   ("snippet", Json.str "A customer cannot complete the purchase."),
   ("sentiment", Json.str "Negative")]

def fullTier1Msg : SlackMessage :=
  { text := some "I cannot complete my purchase at checkout", subtype := none, ts := none }

def fullTier1Env : MsgEnv :=
  { claudeResp := ApiResult.ok tier1Resp, notionResp := ApiResult.ok 500, slackOk := true }

def malformedMsg : SlackMessage :=
  { text := some "The intake form is very confusing to me", subtype := none, ts := some "4.0" }

def malformedEnv : MsgEnv :=
  { claudeResp := ApiResult.ok "Sorry, I cannot classify this.",
    notionResp := ApiResult.ok 200, slackOk := true }

/-- The three-message batch of the end-to-end scenario: one too short, one
Tier 2, one Tier 1, with every write and send succeeding. -/
def scenarioMsgs : List (SlackMessage × MsgEnv) :=
  [ ({ text := some "short", subtype := none, ts := some "1.0" },
     { claudeResp := ApiResult.error, notionResp := ApiResult.error, slackOk := false }),
    ({ text := some "The intake form keeps crashing on step two", subtype := none, ts := some "2.0" },
     { claudeResp := ApiResult.ok tier2Resp, notionResp := ApiResult.ok 200, slackOk := true }),
    ({ text := some "I cannot purchase the Express Petition at checkout", subtype := none, ts := some "3.0" },
     { claudeResp := ApiResult.ok tier1Resp, notionResp := ApiResult.ok 200, slackOk := true }) ]

def scenarioEnv : RunEnv :=
  { channels := [{ name := "general", id := "C0AAA" }, { name := "product-support", id := "C0BBB" }],
    messages := scenarioMsgs }

/-! ### Claims -/

/-- Claim C1, counterexample: the classifier performs no field validation,
so on a valid-JSON model response carrying only a `theme` it returns a
partially populated record — neither `None` nor a record with all six
fields from the enumerations — even for a qualifying (non-empty, ≥10
character) message text. -/
theorem classifier_partial_record_counterexample :
    extract_feedback_with_claude "The checkout flow is broken for me today"
      (ApiResult.ok themeOnlyResp) = some themeOnlyJson ∧
    isFullyPopulated themeOnlyJson = false ∧
    some themeOnlyJson ≠ (none : Option Json) ∧
    10 ≤ "The checkout flow is broken for me today".length :=
  ⟨rfl, rfl, by simp, by decide⟩

/-- Claim C1 (amended): for every message text, the classifier returns
`None` exactly when the transport fails or the response text (after
stripping an optional fenced-code wrapper) is not valid JSON; otherwise it
returns the decoded JSON value as-is, without validating its fields. -/
theorem classifier_parse_characterization (mt : String) (resp : ApiResult String) :
    (extract_feedback_with_claude mt resp = none ↔
      (resp = ApiResult.error ∨ ∃ t, resp = ApiResult.ok t ∧ json_loads (stripFence t) = none)) ∧
    (∀ j, extract_feedback_with_claude mt resp = some j →
      ∃ t, resp = ApiResult.ok t ∧ json_loads (stripFence t) = some j) := by
  cases resp with
  | error => simp [extract_feedback_with_claude]
  | ok t => simp [extract_feedback_with_claude]

/-- Claim C1 witness: the characterization applied to a concrete non-JSON
response. -/
theorem classifier_parse_characterization_witness :
    extract_feedback_with_claude "msg" (ApiResult.ok "not valid json") = none :=
  (classifier_parse_characterization "msg" (ApiResult.ok "not valid json")).1.mpr
    (Or.inr ⟨"not valid json", rfl, rfl⟩)

/-- Claim C3: a malformed (non-JSON after fence stripping) classifier
response makes the loop skip that message — no write attempt, no alert
attempt, no count change — and the remaining batch is processed exactly as
if the message were absent; the parse failure never aborts the run. -/
theorem malformed_response_skips_message (m : SlackMessage) (e : MsgEnv) (t : String)
    (post : List (SlackMessage × MsgEnv))
    (h1 : e.claudeResp = ApiResult.ok t)
    (h2 : json_loads (stripFence t) = none) :
    processMessage m e = Except.ok skippedStep ∧
    runLoop ((m, e) :: post) =
      (runLoop post).map (fun r => (r.1, r.2.1, skippedStep :: r.2.2)) := by
  have hpm : processMessage m e = Except.ok skippedStep := by
    simp only [processMessage, extract_feedback_with_claude, h1, h2]
    split
    · rfl
    · split
      · rfl
      · rfl
  refine ⟨hpm, ?_⟩
  simp only [runLoop, hpm]
  cases hr : runLoop post with
  | error u => rfl
  | ok r =>
    obtain ⟨p, t', outs⟩ := r
    simp [skippedStep, Except.map]

/-- Claim C3 witness: a concrete apology-text response is skipped. -/
theorem malformed_response_skips_message_witness :
    processMessage malformedMsg malformedEnv = Except.ok skippedStep :=
  (malformed_response_skips_message malformedMsg malformedEnv
    "Sorry, I cannot classify this." [] rfl rfl).1

/-- Claim C4: the record writer's source mapping sends "product-support" to
"product-support", "trustpilot" to "trustpilot-reviews", and any other value
through unchanged; the payload's `Source` field is exactly this mapping of
the source argument. -/
theorem source_label_mapping (s : String)
    (h1 : s ≠ "product-support") (h2 : s ≠ "trustpilot") :
    source_map "product-support" = "product-support" ∧
    source_map "trustpilot" = "trustpilot-reviews" ∧
    source_map s = s ∧
    (∀ e src p, buildPayload e src = Except.ok p → p.source = source_map src) := by
  refine ⟨rfl, rfl, ?_, ?_⟩
  · simp [source_map, h1, h2]
  · intro e src p h
    unfold buildPayload at h
    split at h
    · cases h; rfl
    · cases h

/-- Claim C4 witness: the mapping at a concrete unrecognized source. -/
theorem source_label_mapping_witness : source_map "zendesk" = "zendesk" :=
  (source_label_mapping "zendesk" (by decide) (by decide)).2.2.1

/-- Claim C5: when the 7-day query succeeds with zero records, the digest
run sends the literal placeholder report and never calls the model; the
formatting helper's own empty-input shortcut likewise returns its fixed
string without a model call. -/
theorem zero_records_placeholder (body : Json) (mresp : ApiResult String) (sOk : Bool)
    (h : body.getKey "results" = some (Json.arr [])) :
    (digestMain (ApiResult.ok (200, body)) mresp sOk).modelCalled = false ∧
    (digestMain (ApiResult.ok (200, body)) mresp sOk).sentText = some weeklyPlaceholder ∧
    generate_digest_with_claude [] mresp = (some "No feedback collected this week.", false) := by
  have hq : query_notion_past_week (ApiResult.ok (200, body)) = Json.arr [] := by
    simp [query_notion_past_week, h]
  refine ⟨?_, ?_, rfl⟩ <;> simp [digestMain, hq, jsonTruthy]

/-- Claim C5 witness: a concrete empty query result. -/
theorem zero_records_placeholder_witness :
    (digestMain (ApiResult.ok (200, Json.obj [("results", Json.arr [])]))
      ApiResult.error true).sentText = some weeklyPlaceholder :=
  (zero_records_placeholder (Json.obj [("results", Json.arr [])])
    ApiResult.error true rfl).2.1

/-- Claim C6: in the digest's reshaping step, a record with a missing
`Theme` property (or one whose rich-text list is empty) maps to "N/A", a
missing `Persona` maps to "Unknown", and a missing `Strategic Bucket` maps
to "Other"; a record with no recognized properties maps to all defaults. -/
theorem digest_missing_field_defaults :
    (∀ pkvs, lookupLast pkvs "Theme" = none →
       richTextProp (Json.obj pkvs) "Theme" "N/A" = Except.ok (Json.str "N/A")) ∧
    (∀ pkvs, lookupLast pkvs "Persona" = none →
       selectProp (Json.obj pkvs) "Persona" "Unknown" = Except.ok (Json.str "Unknown")) ∧
    (∀ pkvs, lookupLast pkvs "Strategic Bucket" = none →
       selectProp (Json.obj pkvs) "Strategic Bucket" "Other" = Except.ok (Json.str "Other")) ∧
    (∀ tkvs, lookupLast tkvs "rich_text" = some (Json.arr []) →
       richTextProp (Json.obj [("Theme", Json.obj tkvs)]) "Theme" "N/A" =
         Except.ok (Json.str "N/A")) ∧
    formatEntry (Json.obj [("properties", Json.obj [])]) =
      Except.ok { theme := Json.str "N/A", persona := Json.str "Unknown",
                  tier := Json.str "N/A", sentiment := Json.str "N/A",
                  snippet := Json.str "N/A", source := Json.str "N/A",
                  bucket := Json.str "Other" } := by
  refine ⟨?_, ?_, ?_, ?_, rfl⟩
  · intro pkvs h; simp [richTextProp, pyDictGet, h, jsonTruthy, lookupLast]
  · intro pkvs h; simp [selectProp, pyDictGet, h, jsonTruthy, lookupLast]
  · intro pkvs h; simp [selectProp, pyDictGet, h, jsonTruthy, lookupLast]
  · intro tkvs h; simp [richTextProp, pyDictGet, h, jsonTruthy, lookupLast]

/-- Claim C6 witness: the defaults at an entry with an empty property dict. -/
theorem digest_missing_field_defaults_witness :
    richTextProp (Json.obj []) "Theme" "N/A" = Except.ok (Json.str "N/A") :=
  digest_missing_field_defaults.1 [] rfl

set_option maxRecDepth 16000 in
/-- Claim C8: on the batch with one sub-10-character message, one Tier 2
classification, and one Tier 1 classification, with all writes and sends
succeeding, the run writes exactly 2 records, attempts exactly 1 alert, and
reports "Processed: 2 messages" and "Tier 1 alerts: 1". -/
theorem end_to_end_scenario :
    (process_product_support scenarioEnv).ok = true ∧
    (process_product_support scenarioEnv).processed = 2 ∧
    (process_product_support scenarioEnv).tier1 = 1 ∧
    (process_product_support scenarioEnv).summary =
      ["   - Processed: 2 messages", "   - Tier 1 alerts: 1"] ∧
    countWriteAttempts (process_product_support scenarioEnv).steps = 2 ∧
    countAlertAttempts (process_product_support scenarioEnv).steps = 1 :=
  ⟨rfl, rfl, rfl, rfl, rfl, rfl⟩

/-- Claim C9: a failed database query (non-200 status or transport
exception) yields the empty list, after which the digest run is literally
the run on an empty week: placeholder sent, no model call, exit 0 (when the
Slack send itself succeeds). -/
theorem query_failure_empty_week (st : Nat) (body : Json) (mresp : ApiResult String)
    (sOk : Bool) (h : (st == 200) = false) :
    query_notion_past_week (ApiResult.ok (st, body)) = Json.arr [] ∧
    query_notion_past_week ApiResult.error = Json.arr [] ∧
    digestMain (ApiResult.ok (st, body)) mresp sOk = digestMain ApiResult.error mresp sOk ∧
    (sOk = true →
      (digestMain (ApiResult.ok (st, body)) mresp sOk).exitSuccess = true ∧
      (digestMain (ApiResult.ok (st, body)) mresp sOk).sentText = some weeklyPlaceholder ∧
      (digestMain (ApiResult.ok (st, body)) mresp sOk).modelCalled = false) := by
  have hq : query_notion_past_week (ApiResult.ok (st, body)) = Json.arr [] := by
    simp [query_notion_past_week, h]
  refine ⟨hq, rfl, ?_, ?_⟩
  · have hq2 : query_notion_past_week ApiResult.error = Json.arr [] := rfl
    simp only [digestMain, hq, hq2]
  · intro hs
    simp [digestMain, hq, jsonTruthy, hs]

/-- Claim C9 witness: a concrete 500 response behaves as an empty week. -/
theorem query_failure_empty_week_witness :
    (digestMain (ApiResult.ok (500, Json.null)) ApiResult.error true).sentText =
      some weeklyPlaceholder :=
  ((query_failure_empty_week 500 Json.null ApiResult.error true rfl).2.2.2 rfl).2.1

/-- Every non-fatal loop iteration contributes to `processed` exactly when
its Notion write returned success. -/
theorem step_processedInc (m : SlackMessage) (env : MsgEnv) (out : StepOut)
    (h : processMessage m env = Except.ok out) :
    out.processedInc = if out.writeOk then 1 else 0 := by
  simp only [processMessage] at h
  split at h
  · cases h; rfl
  · split at h
    · cases h; rfl
    · cases hx : extract_feedback_with_claude (pyStrip (m.text.getD "")) env.claudeResp with
      | none => simp only [hx] at h; cases h; rfl
      | some j =>
        simp only [hx] at h
        by_cases hT : jsonTruthy j = true
        · rw [if_pos hT] at h
          cases hc : create_notion_entry j "product-support" env.notionResp with
          | error u => simp only [hc] at h; exact (Except.noConfusion h)
          | ok wok =>
            simp only [hc] at h
            cases hu : j.getKey "urgency" with
            | none => simp only [hu] at h; exact (Except.noConfusion h)
            | some urg =>
              simp only [hu] at h
              by_cases hq : jsonEqStr urg "Tier 1" = true
              · rw [if_pos hq] at h
                cases hs : send_tier1_alert j env.slackOk with
                | error u => simp only [hs] at h; exact (Except.noConfusion h)
                | ok aok => simp only [hs] at h; cases h; rfl
              · rw [if_neg hq] at h; cases h; rfl
        · rw [if_neg hT] at h; cases h; rfl

/-- Claim C2, counterexample: a classification that IS successfully returned
by the classifier (a truthy JSON object) and whose urgency equals "Tier 1",
but which lacks the other fields, makes the run die with an uncaught
`KeyError` while building the Notion payload — before any alert attempt —
so this Tier 1 classification triggers zero alert send attempts, not one. -/
theorem tier1_alert_counterexample :
    extract_feedback_with_claude (pyStrip (partialTier1Msg.text.getD ""))
      partialTier1Env.claudeResp = some partialTier1Json ∧
    jsonTruthy partialTier1Json = true ∧
    jsonEqStr ((partialTier1Json.getKey "urgency").getD Json.null) "Tier 1" = true ∧
    processMessage partialTier1Msg partialTier1Env = Except.error () ∧
    alertAttemptCount (processMessage partialTier1Msg partialTier1Env) = 0 :=
  ⟨rfl, rfl, rfl, rfl, rfl⟩

/-- Claim C2 (amended): for every successfully classified message whose
classification record carries all six expected fields (a record missing any
of them aborts the run before the alert check), exactly one alert send
attempt is made if and only if the urgency field equals "Tier 1"; any other
urgency value triggers zero attempts. -/
theorem tier1_alert_exactly_when_tier1 (m : SlackMessage) (e : MsgEnv) (j : Json)
    (hext : extract_feedback_with_claude (pyStrip (m.text.getD "")) e.claudeResp = some j)
    (htruthy : jsonTruthy j = true)
    (hkeys : hasAllSixKeys j = true)
    (hne : (pyStrip (m.text.getD "")).data.isEmpty = false)
    (hsub : isSkippedSubtype m.subtype = false)
    (hlen : ¬ (pyStrip (m.text.getD "")).length < 10) :
    alertAttemptCount (processMessage m e) =
      if jsonEqStr ((j.getKey "urgency").getD Json.null) "Tier 1" then 1 else 0 := by
  simp only [hasAllSixKeys, Bool.and_eq_true] at hkeys
  obtain ⟨⟨⟨⟨⟨h1, h2⟩, h3⟩, h4⟩, h5⟩, h6⟩ := hkeys
  obtain ⟨th, hth⟩ := Option.isSome_iff_exists.mp h1
  obtain ⟨urg, hurg⟩ := Option.isSome_iff_exists.mp h2
  obtain ⟨pe, hpe⟩ := Option.isSome_iff_exists.mp h3
  obtain ⟨bu, hbu⟩ := Option.isSome_iff_exists.mp h4
  obtain ⟨sn, hsn⟩ := Option.isSome_iff_exists.mp h5
  obtain ⟨se, hse⟩ := Option.isSome_iff_exists.mp h6
  have hsend : send_tier1_alert j e.slackOk = Except.ok e.slackOk := by
    simp [send_tier1_alert, hth, hpe, hbu, hsn]
  simp only [processMessage, hne, hsub, hext, htruthy, hlen, create_notion_entry,
    buildPayload, send_tier1_alert, hth, hurg, hpe, hbu, hsn, hse,
    Bool.or_self, Bool.false_or, Bool.or_false, Option.isSome_some, Bool.and_self,
    Option.getD_some, if_false, if_true, Bool.false_eq_true, alertAttemptCount]
  by_cases hq : jsonEqStr urg "Tier 1" = true
  · simp [hq, alertAttemptCount]
  · simp [hq, alertAttemptCount]

set_option maxRecDepth 16000 in
/-- Claim C2 witness: a complete Tier 1 classification makes exactly one
alert attempt even though its Notion write fails with a 500 status. -/
theorem tier1_alert_exactly_when_tier1_witness :
    alertAttemptCount (processMessage fullTier1Msg fullTier1Env) = 1 := by
  have h := tier1_alert_exactly_when_tier1 fullTier1Msg fullTier1Env fullTier1Json
    rfl rfl rfl rfl rfl (by decide)
  exact h.trans (by rfl)

/-- Claim C7, counterexample: the record writer checks `status_code == 200`
rather than the 2xx class, so a 201 response — a 2xx success status — makes
`create_notion_entry` report failure. -/
theorem write_2xx_counterexample :
    create_notion_entry fullTier1Json "product-support" (ApiResult.ok 201) = Except.ok false ∧
    200 ≤ 201 ∧ 201 < 300 :=
  ⟨rfl, by decide, by decide⟩

/-- Claim C7 (amended): the record writer reports success exactly for a 200
response; any other status — including other 2xx statuses — and any
transport error report failure; and a failed write leaves that message out
of the `processed` count while the run continues (a write failure never
raises). -/
theorem write_success_exactly_200 (e : Json) (s : String) (st : Nat)
    (hk : hasAllSixKeys e = true) :
    create_notion_entry e s (ApiResult.ok st) = Except.ok (st == 200) ∧
    create_notion_entry e s ApiResult.error = Except.ok false ∧
    (∀ m env out, processMessage m env = Except.ok out →
       out.processedInc = if out.writeOk then 1 else 0) := by
  simp only [hasAllSixKeys, Bool.and_eq_true] at hk
  obtain ⟨⟨⟨⟨⟨h1, h2⟩, h3⟩, h4⟩, h5⟩, h6⟩ := hk
  obtain ⟨th, hth⟩ := Option.isSome_iff_exists.mp h1
  obtain ⟨urg, hurg⟩ := Option.isSome_iff_exists.mp h2
  obtain ⟨pe, hpe⟩ := Option.isSome_iff_exists.mp h3
  obtain ⟨bu, hbu⟩ := Option.isSome_iff_exists.mp h4
  obtain ⟨sn, hsn⟩ := Option.isSome_iff_exists.mp h5
  obtain ⟨se, hse⟩ := Option.isSome_iff_exists.mp h6
  refine ⟨?_, ?_, step_processedInc⟩
  · simp [create_notion_entry, buildPayload, hth, hurg, hpe, hbu, hsn, hse]
  · simp [create_notion_entry, buildPayload, hth, hurg, hpe, hbu, hsn, hse]

/-- Claim C7 witness: a concrete 500 status reports failure. -/
theorem write_success_exactly_200_witness :
    create_notion_entry fullTier1Json "product-support" (ApiResult.ok 500) =
      Except.ok false := by
  have h := (write_success_exactly_200 fullTier1Json "product-support" 500 rfl).1
  exact h.trans (by rfl)

/-- Claim C10: the alert attempt of an iteration does not depend on the
Notion write's outcome (nor on the Slack outcome) — only the classification
decides it — and the run's `processed` counter equals the number of
iterations whose record write returned success, not the number of classified
messages. -/
theorem alert_write_independent_and_processed_counts :
    (∀ m c n1 n2 s1 s2,
       alertAttemptCount (processMessage m { claudeResp := c, notionResp := n1, slackOk := s1 }) =
       alertAttemptCount (processMessage m { claudeResp := c, notionResp := n2, slackOk := s2 })) ∧
    (∀ msgs p t outs, runLoop msgs = Except.ok (p, t, outs) → p = countWriteSuccess outs) := by
  constructor
  · intro m c n1 n2 s1 s2
    simp only [processMessage]
    by_cases hA : ((pyStrip (m.text.getD "")).data.isEmpty || isSkippedSubtype m.subtype) = true
    · simp [hA]
    · simp only [Bool.not_eq_true] at hA
      simp only [hA, Bool.false_eq_true, if_false]
      by_cases hB : (pyStrip (m.text.getD "")).length < 10
      · simp [hB]
      · simp only [hB, if_false]
        cases hx : extract_feedback_with_claude (pyStrip (m.text.getD "")) c with
        | none => rfl
        | some j =>
          by_cases hT : jsonTruthy j = true
          · simp only [hT, if_true, create_notion_entry]
            cases hb : buildPayload j "product-support" with
            | error u => rfl
            | ok pay =>
              simp only []
              cases hu : j.getKey "urgency" with
              | none => rfl
              | some urg =>
                by_cases hq : jsonEqStr urg "Tier 1" = true
                · simp only [hq, if_true, send_tier1_alert]
                  by_cases hk : ((j.getKey "theme").isSome && (j.getKey "persona").isSome &&
                      (j.getKey "strategic_bucket").isSome && (j.getKey "snippet").isSome) = true
                  · simp [hk, alertAttemptCount]
                  · simp only [Bool.not_eq_true] at hk
                    simp [hk, alertAttemptCount]
                · simp only [Bool.not_eq_true] at hq
                  simp [hq, alertAttemptCount]
          · simp only [Bool.not_eq_true] at hT
            simp [hT]
  · intro msgs
    induction msgs with
    | nil =>
      intro p t outs h
      simp only [runLoop] at h
      cases h
      rfl
    | cons me rest ih =>
      obtain ⟨m, env⟩ := me
      intro p t outs h
      simp only [runLoop] at h
      cases hpm : processMessage m env with
      | error u => rw [hpm] at h; cases h
      | ok s =>
        rw [hpm] at h
        cases hr : runLoop rest with
        | error u => rw [hr] at h; cases h
        | ok r =>
          obtain ⟨p', t', outs'⟩ := r
          rw [hr] at h
          have hs := step_processedInc m env s hpm
          have hih := ih p' t' outs' hr
          cases h
          cases hw : s.writeOk with
          | false => simp [hs, hw, hih, countWriteSuccess]
          | true =>
            simp [hs, hw, hih, countWriteSuccess]
            omega

/-- Claim C10 witness: the alert attempt count of a concrete Tier 1 message
is unchanged between a succeeding and a failing write, and the empty run's
processed count matches its zero successful writes. -/
theorem alert_write_independent_witness :
    alertAttemptCount (processMessage fullTier1Msg
      { claudeResp := ApiResult.ok tier1Resp, notionResp := ApiResult.ok 200, slackOk := true }) =
    alertAttemptCount (processMessage fullTier1Msg
      { claudeResp := ApiResult.ok tier1Resp, notionResp := ApiResult.ok 500, slackOk := false }) ∧
    (0 : Nat) = countWriteSuccess [] := by
  constructor
  · exact alert_write_independent_and_processed_counts.1 fullTier1Msg (ApiResult.ok tier1Resp)
      (ApiResult.ok 200) (ApiResult.ok 500) true false
  · exact alert_write_independent_and_processed_counts.2 [] 0 0 [] rfl

end FeedbackEngine
